import Mathlib

/-!
Shallow embedding of the measurement-aggregation and comparison pipeline of
the pagespeed-compare repository (scripts file, `PageSpeedMonitor` class).

JavaScript numbers appearing here are Lighthouse category scores (rationals
in `[0, 1]`), their `Math.round((x || 0) * 100)` images (small integers) and
averages of those; all such values are exactly representable, so `ℚ`/`ℤ`
model them faithfully.  `Math.round` on a non-negative number is
`⌊x + 1/2⌋` (JS rounds halves toward `+∞`).  Real-time data (the
`timestamp` fields) and the inter-run delay are out of scope and omitted
from the records.  The filesystem is modelled as two key-value maps
(`baseline/` and `latest/` directories) holding raw file contents, with the
JSON codec passed in abstractly (`parse`, `stringify`), since its only
behaviour the core relies on is that a parse either yields a record or
fails.
-/

namespace PageSpeedCompare

/-- JavaScript `Math.round` on exact rational inputs: `⌊q + 1/2⌋`
(halves round toward positive infinity). -/
def mathRound (q : ℚ) : ℤ := ⌊q + 1/2⌋

/-- One successful Lighthouse invocation's rounded category scores
(the object built by `runLighthouse`, minus the timestamp). -/
structure ScoreSample where
  performance : ℤ
  accessibility : ℤ
  bestPractices : ℤ
  seo : ℤ
deriving DecidableEq, Repr

/-- The averaged record built by `runMultipleLighthouse` (minus
`timestamp` and `rawResults`): url, number of contributing runs, and the
four averaged scores. -/
structure Snapshot where
  url : String
  runs : ℕ
  performance : ℤ
  accessibility : ℤ
  bestPractices : ℤ
  seo : ℤ
deriving DecidableEq, Repr

/-- The object returned by `calculateDelta`. -/
structure Delta where
  performance : ℤ
  accessibility : ℤ
  bestPractices : ℤ
  seo : ℤ
deriving DecidableEq, Repr

/-- `results.reduce((sum, r) => sum + f(r), 0)`. -/
def sumBy (f : ScoreSample → ℤ) (l : List ScoreSample) : ℤ :=
  l.foldl (fun s r => s + f r) 0

/-- The `averaged` object of `runMultipleLighthouse`: each category is
`Math.round` of the category sum divided by the number of samples. -/
def averagedSnapshot (url : String) (results : List ScoreSample) : Snapshot :=
  { url := url
    runs := results.length
    performance := mathRound ((sumBy (fun r => r.performance) results : ℚ) / results.length)
    accessibility := mathRound ((sumBy (fun r => r.accessibility) results : ℚ) / results.length)
    bestPractices := mathRound ((sumBy (fun r => r.bestPractices) results : ℚ) / results.length)
    seo := mathRound ((sumBy (fun r => r.seo) results : ℚ) / results.length) }

/-- The raw `categories` object of a parsed Lighthouse result.  Each field
is `none` when the category object is missing or its `score` is `null`
(the `categories.x?.score || 0` access flattens the two cases), otherwise
the raw `0..1` score. -/
structure RawCategories where
  performance : Option ℚ
  accessibility : Option ℚ
  bestPractices : Option ℚ
  seo : Option ℚ

/-- A parsed Lighthouse JSON output: possibly lacking `categories`. -/
structure RawResult where
  categories : Option RawCategories

/-- `runLighthouse`: the argument is `none` when the external invocation or
`JSON.parse` failed (the `catch` branch returns `null`); a result without
`categories` throws, which the same `catch` turns into `null`; otherwise
each category score defaults to `0` and is scaled and rounded. -/
def runLighthouse (output : Option RawResult) : Option ScoreSample :=
  match output with
  | none => none
  | some r =>
    match r.categories with
    | none => none
    | some cats =>
      some { performance := mathRound ((cats.performance.getD 0) * 100)
             accessibility := mathRound ((cats.accessibility.getD 0) * 100)
             bestPractices := mathRound ((cats.bestPractices.getD 0) * 100)
             seo := mathRound ((cats.seo.getD 0) * 100) }

/-- The sequence of per-run outcomes of the `for (let i = 1; i <= runs; i++)`
loop: the scorer is consulted once per run index `1..runs`. -/
def attempts (scorer : ℕ → Option ScoreSample) (runs : ℕ) : List (Option ScoreSample) :=
  (List.range runs).map (fun i => scorer (i + 1))

/-- `runMultipleLighthouse`: collect the successful runs in order (the
`results` array), return `null` when every run failed, otherwise the
averaged snapshot. -/
def runMultipleLighthouse (url : String) (scorer : ℕ → Option ScoreSample)
    (runs : ℕ := 3) : Option Snapshot :=
  if ((attempts scorer runs).filterMap id).length = 0 then none
  else some (averagedSnapshot url ((attempts scorer runs).filterMap id))

/-- Does a character match the JS class `[a-zA-Z0-9]`? -/
def isAlphanum (c : Char) : Bool :=
  (('a' ≤ c && c ≤ 'z') || ('A' ≤ c && c ≤ 'Z') || ('0' ≤ c && c ≤ '9'))

/-- Does `p` occur at the head of `l`? -/
def headMatches : List Char → List Char → Bool
  | [], _ => true
  | _ :: _, [] => false
  | p :: ps, c :: cs => p == c && headMatches ps cs

/-- `url.replace(/https?:\/\//, "")`: delete the leftmost occurrence of
`https://` or `http://` (the regex has no global flag, so only the first
match is removed; it is not anchored, so the scan starts at every
position). -/
def stripScheme : List Char → List Char
  | [] => []
  | c :: cs =>
    if headMatches "https://".data (c :: cs) then (c :: cs).drop 8
    else if headMatches "http://".data (c :: cs) then (c :: cs).drop 7
    else c :: stripScheme cs

/-- The two `replace` calls of `urlToFilename`: strip the scheme, then
replace every non-alphanumeric character with `-`. -/
def normalizeKey (url : String) : String :=
  ⟨(stripScheme url.data).map (fun c => if isAlphanum c then c else '-')⟩

/-- `urlToFilename`: the normalized URL plus the `.json` suffix. -/
def urlToFilename (url : String) : String :=
  normalizeKey url ++ ".json"

/-- The two snapshot directories, as maps from file name to raw file
content (`none` = no such file). -/
structure Store where
  baseline : String → Option String
  latest : String → Option String

/-- Write value `v` under key `k` in a key-value map. -/
def setKey (f : String → Option String) (k v : String) : String → Option String :=
  fun k' => if k' = k then some v else f k'

/-- One `fs.writeFile` of `saveResults`: serialize the snapshot into the
directory selected by `isBaseline`, under its URL's file name. -/
def writeSlot (stringify : Snapshot → String) (isBaseline : Bool)
    (r : Snapshot) (st : Store) : Store :=
  if isBaseline then { st with baseline := setKey st.baseline (urlToFilename r.url) (stringify r) }
  else { st with latest := setKey st.latest (urlToFilename r.url) (stringify r) }

/-- `saveResults`: write every result to the target directory in order. -/
def saveResults (stringify : Snapshot → String) (results : List Snapshot)
    (isBaseline : Bool) (st : Store) : Store :=
  results.foldl (fun acc r => writeSlot stringify isBaseline r acc) st

/-- `loadBaseline`: read the baseline file for the URL and parse it; a
missing file or a `JSON.parse` exception both land in the `catch` branch,
which returns `null`. -/
def loadBaseline (parse : String → Option Snapshot) (st : Store)
    (url : String) : Option Snapshot :=
  (st.baseline (urlToFilename url)).bind parse

/-- `calculateDelta`: `null` baseline gives `null`; otherwise the four
signed per-category differences, unclamped. -/
def calculateDelta (current : Snapshot) (baseline : Option Snapshot) : Option Delta :=
  match baseline with
  | none => none
  | some b =>
    some { performance := current.performance - b.performance
           accessibility := current.accessibility - b.accessibility
           bestPractices := current.bestPractices - b.bestPractices
           seo := current.seo - b.seo }

/-- What `generateReports` hands to the HTML renderer for one result:
the current snapshot, the loaded baseline (or `none`), and the delta
(or `none`). -/
structure Report where
  current : Snapshot
  baseline : Option Snapshot
  delta : Option Delta

/-- `generateReports`: for every result, load its baseline and compute the
delta. -/
def generateReports (parse : String → Option Snapshot) (st : Store)
    (results : List Snapshot) : List Report :=
  results.map (fun r =>
    let b := loadBaseline parse st r.url
    { current := r, baseline := b, delta := calculateDelta r b })

/-- The observable outcome of one `run()` invocation: the process exit
code, the final state of the two directories, and the reports handed to
the renderer. -/
structure RunOutcome where
  exitCode : ℕ
  state : Store
  reports : List Report

/-- The results-accumulation loop of `run`: sample every URL in order,
keeping the successful snapshots. -/
def sampleAll (scorers : String → ℕ → Option ScoreSample) (urls : List String) :
    List Snapshot :=
  urls.filterMap (fun u => runMultipleLighthouse u (scorers u) 3)

/-- The `run` orchestrator over a given URL list (configuration loading and
CLI parsing are the peripheral glue that produces `urls` and
`updateBaseline`): sample every URL in order keeping the successes; exit 1
when none succeeded; in baseline mode save to `baseline/` and render
nothing; otherwise save to `latest/`, then generate a report per result. -/
def run (parse : String → Option Snapshot) (stringify : Snapshot → String)
    (scorers : String → ℕ → Option ScoreSample) (urls : List String)
    (updateBaseline : Bool) (st : Store) : RunOutcome :=
  if (sampleAll scorers urls).length = 0 then
    { exitCode := 1, state := st, reports := [] }
  else if updateBaseline then
    { exitCode := 0, state := saveResults stringify (sampleAll scorers urls) true st,
      reports := [] }
  else
    { exitCode := 0, state := saveResults stringify (sampleAll scorers urls) false st,
      reports := generateReports parse (saveResults stringify (sampleAll scorers urls) false st)
        (sampleAll scorers urls) }

/-- The specification's rounding contract, stated directly: `z` is the
nearest integer to `s / n` with halves rounded up, i.e.
`s/n - 1/2 < z ≤ s/n + 1/2`, cleared of denominators. -/
def IsRoundHalfUp (s : ℤ) (n : ℕ) (z : ℤ) : Prop :=
  2 * s - n < 2 * n * z ∧ 2 * n * z ≤ 2 * s + n

instance (s : ℤ) (n : ℕ) (z : ℤ) : Decidable (IsRoundHalfUp s n z) :=
  inferInstanceAs (Decidable (_ ∧ _))

/-- A concrete raw `categories` object missing two of the four scores
(performance and best-practices), used to exercise the missing-score
handling. -/
def catsMissingTwo : RawCategories :=
  { performance := none, accessibility := some (7/10),
    bestPractices := none, seo := some (9/10) }

/-- Minimum of a list of integers (0 on the empty list, which is never
queried). -/
def listMin : List ℤ → ℤ
  | [] => 0
  | [x] => x
  | x :: y :: t => min x (listMin (y :: t))

/-- Maximum of a list of integers (0 on the empty list, which is never
queried). -/
def listMax : List ℤ → ℤ
  | [] => 0
  | [x] => x
  | x :: y :: t => max x (listMax (y :: t))

lemma listMin_le {l : List ℤ} {x : ℤ} (hx : x ∈ l) : listMin l ≤ x := by
  induction l with
  | nil => cases hx
  | cons a t ih =>
    cases t with
    | nil =>
      have : x = a := by simpa using hx
      subst this
      simp [listMin]
    | cons b t2 =>
      rcases List.mem_cons.mp hx with h | h
      · subst h
        exact min_le_left _ _
      · exact le_trans (min_le_right _ _) (ih h)

lemma le_listMax {l : List ℤ} {x : ℤ} (hx : x ∈ l) : x ≤ listMax l := by
  induction l with
  | nil => cases hx
  | cons a t ih =>
    cases t with
    | nil =>
      have : x = a := by simpa using hx
      subst this
      simp [listMax]
    | cons b t2 =>
      rcases List.mem_cons.mp hx with h | h
      · subst h
        exact le_max_left _ _
      · exact le_trans (ih h) (le_max_right _ _)

lemma foldl_add_eq (f : ScoreSample → ℤ) (l : List ScoreSample) (a : ℤ) :
    l.foldl (fun s r => s + f r) a = a + sumBy f l := by
  induction l generalizing a with
  | nil => simp [sumBy]
  | cons x t ih =>
    calc (x :: t).foldl (fun s r => s + f r) a
        = t.foldl (fun s r => s + f r) (a + f x) := rfl
      _ = (a + f x) + sumBy f t := ih _
      _ = a + ((0 + f x) + sumBy f t) := by ring
      _ = a + t.foldl (fun s r => s + f r) (0 + f x) := by rw [ih]
      _ = a + sumBy f (x :: t) := rfl

lemma sumBy_cons (f : ScoreSample → ℤ) (x : ScoreSample) (t : List ScoreSample) :
    sumBy f (x :: t) = f x + sumBy f t := by
  have : sumBy f (x :: t) = t.foldl (fun s r => s + f r) (0 + f x) := rfl
  rw [this, foldl_add_eq]
  ring

lemma mul_length_le_sumBy (f : ScoreSample → ℤ) (l : List ScoreSample) (lo : ℤ)
    (h : ∀ r ∈ l, lo ≤ f r) : lo * l.length ≤ sumBy f l := by
  induction l with
  | nil => simp [sumBy]
  | cons a t ih =>
    have ha : lo ≤ f a := h a (List.mem_cons_self a t)
    have ht : lo * t.length ≤ sumBy f t := ih (fun r hr => h r (List.mem_cons_of_mem a hr))
    rw [sumBy_cons]
    push_cast [List.length_cons]
    nlinarith

lemma sumBy_le_mul_length (f : ScoreSample → ℤ) (l : List ScoreSample) (hi : ℤ)
    (h : ∀ r ∈ l, f r ≤ hi) : sumBy f l ≤ hi * l.length := by
  induction l with
  | nil => simp [sumBy]
  | cons a t ih =>
    have ha : f a ≤ hi := h a (List.mem_cons_self a t)
    have ht : sumBy f t ≤ hi * t.length := ih (fun r hr => h r (List.mem_cons_of_mem a hr))
    rw [sumBy_cons]
    push_cast [List.length_cons]
    nlinarith

/-- `Math.round (s / n)` is the nearest integer to `s / n`, halves up. -/
lemma mathRound_div_mem (s : ℤ) (n : ℕ) (h : 0 < n) :
    IsRoundHalfUp s n (mathRound ((s : ℚ) / n)) := by
  unfold IsRoundHalfUp mathRound
  have hn : (0 : ℚ) < n := by exact_mod_cast h
  have h1 : ((⌊(s : ℚ) / n + 1/2⌋ : ℤ) : ℚ) ≤ (s : ℚ) / n + 1/2 := Int.floor_le _
  have h2 : (s : ℚ) / n + 1/2 < (⌊(s : ℚ) / n + 1/2⌋ : ℤ) + 1 := Int.lt_floor_add_one _
  have h3 : (s : ℚ) / n < ((⌊(s : ℚ) / n + 1/2⌋ : ℤ) : ℚ) + 1/2 := by linarith
  have h4 : ((⌊(s : ℚ) / n + 1/2⌋ : ℤ) : ℚ) - 1/2 ≤ (s : ℚ) / n := by linarith
  rw [div_lt_iff₀ hn] at h3
  rw [le_div_iff₀ hn] at h4
  constructor
  · exact_mod_cast (by nlinarith :
      2 * (s : ℚ) - n < 2 * n * ((⌊(s : ℚ) / n + 1/2⌋ : ℤ) : ℚ))
  · exact_mod_cast (by nlinarith :
      2 * (n : ℚ) * ((⌊(s : ℚ) / n + 1/2⌋ : ℤ) : ℚ) ≤ 2 * s + n)

lemma le_mathRound_div (s lo : ℤ) (n : ℕ) (h0 : 0 < n) (h : lo * n ≤ s) :
    lo ≤ mathRound ((s : ℚ) / n) := by
  unfold mathRound
  have hn : (0 : ℚ) < n := by exact_mod_cast h0
  rw [Int.le_floor]
  have hq : (lo : ℚ) * n ≤ s := by exact_mod_cast h
  have hlo : (lo : ℚ) ≤ (s : ℚ) / n := (le_div_iff₀ hn).mpr hq
  linarith

lemma mathRound_div_le (s hi : ℤ) (n : ℕ) (h0 : 0 < n) (h : s ≤ hi * n) :
    mathRound ((s : ℚ) / n) ≤ hi := by
  unfold mathRound
  have hn : (0 : ℚ) < n := by exact_mod_cast h0
  have hq : (s : ℚ) ≤ hi * n := by exact_mod_cast h
  have hhi : (s : ℚ) / n ≤ hi := (div_le_iff₀ hn).mpr hq
  have : ⌊(s : ℚ) / n + 1/2⌋ < hi + 1 := by
    rw [Int.floor_lt]
    push_cast
    linarith
  omega

lemma avg_between (f : ScoreSample → ℤ) (samples : List ScoreSample)
    (h : samples ≠ []) :
    listMin (samples.map f) ≤ mathRound ((sumBy f samples : ℚ) / samples.length) ∧
      mathRound ((sumBy f samples : ℚ) / samples.length) ≤ listMax (samples.map f) := by
  have hlen : 0 < samples.length := List.length_pos.mpr h
  constructor
  · refine le_mathRound_div _ _ _ hlen (mul_length_le_sumBy f samples _ ?_)
    intro r hr
    exact listMin_le (List.mem_map_of_mem f hr)
  · refine mathRound_div_le _ _ _ hlen (sumBy_le_mul_length f samples _ ?_)
    intro r hr
    exact le_listMax (List.mem_map_of_mem f hr)

/-- Claim C1: for every non-empty sample list, the aggregated snapshot's
score in each of the four categories is the category sum divided by the
sample count, rounded to the nearest integer with halves up, and `runs` is
the sample count; in particular three samples with performance
`[80, 90, 100]` and the other categories at `70` average to
`90/70/70/70` with `count = 3`. -/
theorem averagedSnapshot_round_half_up (url : String) (samples : List ScoreSample)
    (h : samples ≠ []) :
    (averagedSnapshot url samples).runs = samples.length ∧
    IsRoundHalfUp (sumBy (fun r => r.performance) samples) samples.length
      (averagedSnapshot url samples).performance ∧
    IsRoundHalfUp (sumBy (fun r => r.accessibility) samples) samples.length
      (averagedSnapshot url samples).accessibility ∧
    IsRoundHalfUp (sumBy (fun r => r.bestPractices) samples) samples.length
      (averagedSnapshot url samples).bestPractices ∧
    IsRoundHalfUp (sumBy (fun r => r.seo) samples) samples.length
      (averagedSnapshot url samples).seo ∧
    averagedSnapshot "https://example.com/"
        [⟨80, 70, 70, 70⟩, ⟨90, 70, 70, 70⟩, ⟨100, 70, 70, 70⟩] =
      { url := "https://example.com/", runs := 3, performance := 90,
        accessibility := 70, bestPractices := 70, seo := 70 } := by
  have hlen : 0 < samples.length := List.length_pos.mpr h
  refine ⟨rfl, mathRound_div_mem _ _ hlen, mathRound_div_mem _ _ hlen,
    mathRound_div_mem _ _ hlen, mathRound_div_mem _ _ hlen, ?_⟩
  simp only [averagedSnapshot, sumBy, List.foldl, List.length_cons, List.length_nil]
  norm_num [mathRound, Snapshot.mk.injEq]

/-- Witness for C1 at the spec's end-to-end sample list. -/
theorem averagedSnapshot_round_half_up_spot :
    ([⟨80, 70, 70, 70⟩, ⟨90, 70, 70, 70⟩, ⟨100, 70, 70, 70⟩] : List ScoreSample) ≠ [] ∧
    ((averagedSnapshot "https://example.com/"
        [⟨80, 70, 70, 70⟩, ⟨90, 70, 70, 70⟩, ⟨100, 70, 70, 70⟩]).runs =
      ([⟨80, 70, 70, 70⟩, ⟨90, 70, 70, 70⟩, ⟨100, 70, 70, 70⟩] : List ScoreSample).length ∧
    IsRoundHalfUp (sumBy (fun r => r.performance)
        [⟨80, 70, 70, 70⟩, ⟨90, 70, 70, 70⟩, ⟨100, 70, 70, 70⟩])
      ([⟨80, 70, 70, 70⟩, ⟨90, 70, 70, 70⟩, ⟨100, 70, 70, 70⟩] : List ScoreSample).length
      (averagedSnapshot "https://example.com/"
        [⟨80, 70, 70, 70⟩, ⟨90, 70, 70, 70⟩, ⟨100, 70, 70, 70⟩]).performance ∧
    IsRoundHalfUp (sumBy (fun r => r.accessibility)
        [⟨80, 70, 70, 70⟩, ⟨90, 70, 70, 70⟩, ⟨100, 70, 70, 70⟩])
      ([⟨80, 70, 70, 70⟩, ⟨90, 70, 70, 70⟩, ⟨100, 70, 70, 70⟩] : List ScoreSample).length
      (averagedSnapshot "https://example.com/"
        [⟨80, 70, 70, 70⟩, ⟨90, 70, 70, 70⟩, ⟨100, 70, 70, 70⟩]).accessibility ∧
    IsRoundHalfUp (sumBy (fun r => r.bestPractices)
        [⟨80, 70, 70, 70⟩, ⟨90, 70, 70, 70⟩, ⟨100, 70, 70, 70⟩])
      ([⟨80, 70, 70, 70⟩, ⟨90, 70, 70, 70⟩, ⟨100, 70, 70, 70⟩] : List ScoreSample).length
      (averagedSnapshot "https://example.com/"
        [⟨80, 70, 70, 70⟩, ⟨90, 70, 70, 70⟩, ⟨100, 70, 70, 70⟩]).bestPractices ∧
    IsRoundHalfUp (sumBy (fun r => r.seo)
        [⟨80, 70, 70, 70⟩, ⟨90, 70, 70, 70⟩, ⟨100, 70, 70, 70⟩])
      ([⟨80, 70, 70, 70⟩, ⟨90, 70, 70, 70⟩, ⟨100, 70, 70, 70⟩] : List ScoreSample).length
      (averagedSnapshot "https://example.com/"
        [⟨80, 70, 70, 70⟩, ⟨90, 70, 70, 70⟩, ⟨100, 70, 70, 70⟩]).seo ∧
    averagedSnapshot "https://example.com/"
        [⟨80, 70, 70, 70⟩, ⟨90, 70, 70, 70⟩, ⟨100, 70, 70, 70⟩] =
      { url := "https://example.com/", runs := 3, performance := 90,
        accessibility := 70, bestPractices := 70, seo := 70 }) :=
  ⟨by decide,
   averagedSnapshot_round_half_up "https://example.com/"
     [⟨80, 70, 70, 70⟩, ⟨90, 70, 70, 70⟩, ⟨100, 70, 70, 70⟩] (by decide)⟩

/-- Claim C2: for every non-empty sample list and each of the four
categories, the aggregated snapshot's category score lies between the
minimum and the maximum of that category's scores among the samples. -/
theorem averagedSnapshot_between_min_max (url : String)
    (samples : List ScoreSample) (h : samples ≠ []) :
    (listMin (samples.map (fun r => r.performance)) ≤ (averagedSnapshot url samples).performance ∧
      (averagedSnapshot url samples).performance ≤ listMax (samples.map (fun r => r.performance))) ∧
    (listMin (samples.map (fun r => r.accessibility)) ≤ (averagedSnapshot url samples).accessibility ∧
      (averagedSnapshot url samples).accessibility ≤ listMax (samples.map (fun r => r.accessibility))) ∧
    (listMin (samples.map (fun r => r.bestPractices)) ≤ (averagedSnapshot url samples).bestPractices ∧
      (averagedSnapshot url samples).bestPractices ≤ listMax (samples.map (fun r => r.bestPractices))) ∧
    (listMin (samples.map (fun r => r.seo)) ≤ (averagedSnapshot url samples).seo ∧
      (averagedSnapshot url samples).seo ≤ listMax (samples.map (fun r => r.seo))) :=
  ⟨avg_between _ samples h, avg_between _ samples h,
   avg_between _ samples h, avg_between _ samples h⟩

/-- Witness for C2 at the same concrete sample list. -/
theorem averagedSnapshot_between_min_max_spot :
    ([⟨80, 70, 70, 70⟩, ⟨90, 70, 70, 70⟩, ⟨100, 70, 70, 70⟩] : List ScoreSample) ≠ [] ∧
    ((listMin (([⟨80, 70, 70, 70⟩, ⟨90, 70, 70, 70⟩, ⟨100, 70, 70, 70⟩] : List ScoreSample).map
        (fun r => r.performance)) ≤
      (averagedSnapshot "u" [⟨80, 70, 70, 70⟩, ⟨90, 70, 70, 70⟩, ⟨100, 70, 70, 70⟩]).performance ∧
      (averagedSnapshot "u" [⟨80, 70, 70, 70⟩, ⟨90, 70, 70, 70⟩, ⟨100, 70, 70, 70⟩]).performance ≤
      listMax (([⟨80, 70, 70, 70⟩, ⟨90, 70, 70, 70⟩, ⟨100, 70, 70, 70⟩] : List ScoreSample).map
        (fun r => r.performance))) ∧
    (listMin (([⟨80, 70, 70, 70⟩, ⟨90, 70, 70, 70⟩, ⟨100, 70, 70, 70⟩] : List ScoreSample).map
        (fun r => r.accessibility)) ≤
      (averagedSnapshot "u" [⟨80, 70, 70, 70⟩, ⟨90, 70, 70, 70⟩, ⟨100, 70, 70, 70⟩]).accessibility ∧
      (averagedSnapshot "u" [⟨80, 70, 70, 70⟩, ⟨90, 70, 70, 70⟩, ⟨100, 70, 70, 70⟩]).accessibility ≤
      listMax (([⟨80, 70, 70, 70⟩, ⟨90, 70, 70, 70⟩, ⟨100, 70, 70, 70⟩] : List ScoreSample).map
        (fun r => r.accessibility))) ∧
    (listMin (([⟨80, 70, 70, 70⟩, ⟨90, 70, 70, 70⟩, ⟨100, 70, 70, 70⟩] : List ScoreSample).map
        (fun r => r.bestPractices)) ≤
      (averagedSnapshot "u" [⟨80, 70, 70, 70⟩, ⟨90, 70, 70, 70⟩, ⟨100, 70, 70, 70⟩]).bestPractices ∧
      (averagedSnapshot "u" [⟨80, 70, 70, 70⟩, ⟨90, 70, 70, 70⟩, ⟨100, 70, 70, 70⟩]).bestPractices ≤
      listMax (([⟨80, 70, 70, 70⟩, ⟨90, 70, 70, 70⟩, ⟨100, 70, 70, 70⟩] : List ScoreSample).map
        (fun r => r.bestPractices))) ∧
    (listMin (([⟨80, 70, 70, 70⟩, ⟨90, 70, 70, 70⟩, ⟨100, 70, 70, 70⟩] : List ScoreSample).map
        (fun r => r.seo)) ≤
      (averagedSnapshot "u" [⟨80, 70, 70, 70⟩, ⟨90, 70, 70, 70⟩, ⟨100, 70, 70, 70⟩]).seo ∧
      (averagedSnapshot "u" [⟨80, 70, 70, 70⟩, ⟨90, 70, 70, 70⟩, ⟨100, 70, 70, 70⟩]).seo ≤
      listMax (([⟨80, 70, 70, 70⟩, ⟨90, 70, 70, 70⟩, ⟨100, 70, 70, 70⟩] : List ScoreSample).map
        (fun r => r.seo)))) :=
  ⟨by decide,
   averagedSnapshot_between_min_max "u"
     [⟨80, 70, 70, 70⟩, ⟨90, 70, 70, 70⟩, ⟨100, 70, 70, 70⟩] (by decide)⟩

/-- Claim C3: for every pair of snapshots with all eight category scores in
`0..100`, `calculateDelta` returns exactly the four signed per-category
differences `latest − baseline`, with no clamping. -/
theorem calculateDelta_eq_sub (current b : Snapshot)
    (h : (0 ≤ current.performance ∧ current.performance ≤ 100) ∧
         (0 ≤ current.accessibility ∧ current.accessibility ≤ 100) ∧
         (0 ≤ current.bestPractices ∧ current.bestPractices ≤ 100) ∧
         (0 ≤ current.seo ∧ current.seo ≤ 100) ∧
         (0 ≤ b.performance ∧ b.performance ≤ 100) ∧
         (0 ≤ b.accessibility ∧ b.accessibility ≤ 100) ∧
         (0 ≤ b.bestPractices ∧ b.bestPractices ≤ 100) ∧
         (0 ≤ b.seo ∧ b.seo ≤ 100)) :
    calculateDelta current (some b) =
      some { performance := current.performance - b.performance
             accessibility := current.accessibility - b.accessibility
             bestPractices := current.bestPractices - b.bestPractices
             seo := current.seo - b.seo } := rfl

/-- Witness for C3 at concrete snapshots: latest scores 90/70/70/70 against
baseline 85/72/70/70 give delta +5/−2/0/0. -/
theorem calculateDelta_eq_sub_spot :
    calculateDelta
        { url := "https://example.com/", runs := 3, performance := 90,
          accessibility := 70, bestPractices := 70, seo := 70 }
        (some { url := "https://example.com/", runs := 3, performance := 85,
                accessibility := 72, bestPractices := 70, seo := 70 }) =
      some { performance := 5, accessibility := -2, bestPractices := 0, seo := 0 } := by
  have h := calculateDelta_eq_sub
      { url := "https://example.com/", runs := 3, performance := 90,
        accessibility := 70, bestPractices := 70, seo := 70 }
      { url := "https://example.com/", runs := 3, performance := 85,
        accessibility := 72, bestPractices := 70, seo := 70 }
      (by decide)
  simpa using h

/-- Claim C4: when the stored baseline record for a URL is absent, or
present but unparseable, `loadBaseline` yields the not-found sentinel
(`none`, never a fabricated default), and `calculateDelta` on that result
yields no delta. -/
theorem loadBaseline_missing_or_corrupt (parse : String → Option Snapshot)
    (st : Store) (url : String) (current : Snapshot)
    (h : ∀ d, st.baseline (urlToFilename url) = some d → parse d = none) :
    loadBaseline parse st url = none ∧
      calculateDelta current (loadBaseline parse st url) = none := by
  have hload : loadBaseline parse st url = none := by
    unfold loadBaseline
    cases hb : st.baseline (urlToFilename url) with
    | none => rfl
    | some d => simpa using h d hb
  exact ⟨hload, by rw [hload]; rfl⟩

/-- Witness for C4: a store whose baseline slot holds corrupt text for the
key of one URL and nothing for others, with a parser that rejects it. -/
theorem loadBaseline_missing_or_corrupt_spot :
    (∀ d, (Store.mk (fun _ => some "not json") (fun _ => none)).baseline
          (urlToFilename "https://example.com/") = some d → (fun _ => (none : Option Snapshot)) d = none) ∧
    (loadBaseline (fun _ => none) (Store.mk (fun _ => some "not json") (fun _ => none))
        "https://example.com/" = none ∧
      calculateDelta
        { url := "https://example.com/", runs := 3, performance := 90,
          accessibility := 70, bestPractices := 70, seo := 70 }
        (loadBaseline (fun _ => none)
          (Store.mk (fun _ => some "not json") (fun _ => none)) "https://example.com/") = none) :=
  ⟨fun _ _ => rfl,
   loadBaseline_missing_or_corrupt (fun _ => none)
     (Store.mk (fun _ => some "not json") (fun _ => none)) "https://example.com/"
     { url := "https://example.com/", runs := 3, performance := 90,
       accessibility := 70, bestPractices := 70, seo := 70 }
     (fun _ _ => rfl)⟩

lemma runMultipleLighthouse_url {u : String} {s : ℕ → Option ScoreSample}
    {n : ℕ} {snap : Snapshot} (h : runMultipleLighthouse u s n = some snap) :
    snap.url = u := by
  unfold runMultipleLighthouse at h
  split at h
  · exact absurd h (by simp)
  · cases h
    rfl

lemma runMultipleLighthouse_all_fail {u : String} {s : ℕ → Option ScoreSample}
    (hfail : ∀ i, 1 ≤ i → i ≤ 3 → s i = none) :
    runMultipleLighthouse u s 3 = none := by
  have ha : attempts s 3 = [s 1, s 2, s 3] := rfl
  have h1 : s 1 = none := hfail 1 (by omega) (by omega)
  have h2 : s 2 = none := hfail 2 (by omega) (by omega)
  have h3 : s 3 = none := hfail 3 (by omega) (by omega)
  simp [runMultipleLighthouse, ha, h1, h2, h3]

lemma writeSlot_preserve (stringify : Snapshot → String) (b : Bool) (r : Snapshot)
    (st : Store) (k : String) (hk : urlToFilename r.url ≠ k) :
    (writeSlot stringify b r st).baseline k = st.baseline k ∧
      (writeSlot stringify b r st).latest k = st.latest k := by
  have hk' : ¬(k = urlToFilename r.url) := fun h => hk h.symm
  cases b <;> simp [writeSlot, setKey, hk']

lemma saveResults_preserve (stringify : Snapshot → String) (results : List Snapshot)
    (b : Bool) (st : Store) (k : String)
    (h : ∀ r ∈ results, urlToFilename r.url ≠ k) :
    (saveResults stringify results b st).baseline k = st.baseline k ∧
      (saveResults stringify results b st).latest k = st.latest k := by
  induction results generalizing st with
  | nil => exact ⟨rfl, rfl⟩
  | cons a t ih =>
    have ha : urlToFilename a.url ≠ k := h a (List.mem_cons_self a t)
    have hstep := writeSlot_preserve stringify b a st k ha
    have hrest := ih (writeSlot stringify b a st)
      (fun r hr => h r (List.mem_cons_of_mem a hr))
    exact ⟨hrest.1.trans hstep.1, hrest.2.trans hstep.2⟩

lemma saveResults_true_latest (stringify : Snapshot → String)
    (results : List Snapshot) (st : Store) (k : String) :
    (saveResults stringify results true st).latest k = st.latest k := by
  induction results generalizing st with
  | nil => rfl
  | cons a t ih =>
    have hstep : (writeSlot stringify true a st).latest k = st.latest k := rfl
    exact (ih (writeSlot stringify true a st)).trans hstep

lemma saveResults_baseline_written (stringify : Snapshot → String)
    (results : List Snapshot) (st : Store) (r : Snapshot) (hr : r ∈ results)
    (huniq : ∀ r' ∈ results, urlToFilename r'.url = urlToFilename r.url → r' = r) :
    (saveResults stringify results true st).baseline (urlToFilename r.url) =
      some (stringify r) := by
  induction results generalizing st with
  | nil => cases hr
  | cons a t ih =>
    by_cases hmem : r ∈ t
    · exact ih (writeSlot stringify true a st) hmem
        (fun r' hr' he => huniq r' (List.mem_cons_of_mem a hr') he)
    · have hra : r = a := by
        rcases List.mem_cons.mp hr with h | h
        · exact h
        · exact absurd h hmem
      subst hra
      have ht : ∀ r' ∈ t, urlToFilename r'.url ≠ urlToFilename r.url := by
        intro r' hr' he
        exact hmem ((huniq r' (List.mem_cons_of_mem r hr') he) ▸ hr')
      have hkeep := (saveResults_preserve stringify t true
        (writeSlot stringify true r st) (urlToFilename r.url) ht).1
      calc (saveResults stringify (r :: t) true st).baseline (urlToFilename r.url)
          = (saveResults stringify t true (writeSlot stringify true r st)).baseline
              (urlToFilename r.url) := rfl
        _ = (writeSlot stringify true r st).baseline (urlToFilename r.url) := hkeep
        _ = some (stringify r) := by simp [writeSlot, setKey]

lemma run_state_preserve (parse : String → Option Snapshot)
    (stringify : Snapshot → String) (scorers : String → ℕ → Option ScoreSample)
    (urls : List String) (mode : Bool) (st : Store) (k : String)
    (hk : ∀ w ∈ urls, urlToFilename w ≠ k) :
    (run parse stringify scorers urls mode st).state.baseline k = st.baseline k ∧
      (run parse stringify scorers urls mode st).state.latest k = st.latest k := by
  have hres : ∀ r ∈ sampleAll scorers urls, urlToFilename r.url ≠ k := by
    intro r hr
    obtain ⟨w, hw, hwr⟩ := List.mem_filterMap.mp hr
    rw [runMultipleLighthouse_url hwr]
    exact hk w hw
  unfold run
  split
  · exact ⟨rfl, rfl⟩
  · split
    · exact saveResults_preserve stringify (sampleAll scorers urls) true st k hres
    · exact saveResults_preserve stringify (sampleAll scorers urls) false st k hres

/-- Claim C5: the sampler consults the scorer exactly `runCount` times in
sequence (default `runCount = 3`), drops failures without retry, and when
the successful outcomes among the three runs are exactly `[a, b]` (one
failure), the snapshot has `count = 2` and every category score is the
average of the two successes. -/
theorem runMultipleLighthouse_two_of_three (url : String)
    (scorer : ℕ → Option ScoreSample) (a b : ScoreSample)
    (h : (attempts scorer 3).filterMap id = [a, b]) :
    (attempts scorer 3).length = 3 ∧
    runMultipleLighthouse url scorer = runMultipleLighthouse url scorer 3 ∧
    runMultipleLighthouse url scorer 3 =
      some { url := url, runs := 2,
             performance := mathRound (((a.performance + b.performance : ℤ) : ℚ) / 2),
             accessibility := mathRound (((a.accessibility + b.accessibility : ℤ) : ℚ) / 2),
             bestPractices := mathRound (((a.bestPractices + b.bestPractices : ℤ) : ℚ) / 2),
             seo := mathRound (((a.seo + b.seo : ℤ) : ℚ) / 2) } := by
  refine ⟨by simp [attempts], rfl, ?_⟩
  unfold runMultipleLighthouse
  rw [h]
  simp only [List.length_cons, List.length_nil, averagedSnapshot,
    Snapshot.mk.injEq, sumBy_cons, sumBy, List.foldl]
  norm_num

/-- Witness for C5: run 2 of 3 fails; the other two succeed with
performance 80 and 90. -/
theorem runMultipleLighthouse_two_of_three_spot :
    ((attempts (fun i => if i = 2 then none
        else if i = 1 then some ⟨80, 70, 70, 70⟩ else some ⟨90, 72, 68, 70⟩) 3).filterMap id =
      [⟨80, 70, 70, 70⟩, ⟨90, 72, 68, 70⟩]) ∧
    ((attempts (fun i => if i = 2 then none
        else if i = 1 then some ⟨80, 70, 70, 70⟩ else some ⟨90, 72, 68, 70⟩) 3).length = 3 ∧
    runMultipleLighthouse "https://example.com/"
        (fun i => if i = 2 then none
          else if i = 1 then some ⟨80, 70, 70, 70⟩ else some ⟨90, 72, 68, 70⟩) =
      runMultipleLighthouse "https://example.com/"
        (fun i => if i = 2 then none
          else if i = 1 then some ⟨80, 70, 70, 70⟩ else some ⟨90, 72, 68, 70⟩) 3 ∧
    runMultipleLighthouse "https://example.com/"
        (fun i => if i = 2 then none
          else if i = 1 then some ⟨80, 70, 70, 70⟩ else some ⟨90, 72, 68, 70⟩) 3 =
      some { url := "https://example.com/", runs := 2,
             performance := mathRound ((((80 : ℤ) + 90 : ℤ) : ℚ) / 2),
             accessibility := mathRound ((((70 : ℤ) + 72 : ℤ) : ℚ) / 2),
             bestPractices := mathRound ((((70 : ℤ) + 68 : ℤ) : ℚ) / 2),
             seo := mathRound ((((70 : ℤ) + 70 : ℤ) : ℚ) / 2) }) :=
  ⟨by decide,
   runMultipleLighthouse_two_of_three "https://example.com/"
     (fun i => if i = 2 then none
       else if i = 1 then some ⟨80, 70, 70, 70⟩ else some ⟨90, 72, 68, 70⟩)
     ⟨80, 70, 70, 70⟩ ⟨90, 72, 68, 70⟩ (by decide)⟩

/-- Claim C6: when every one of the three scorer invocations for a URL
fails, sampling for it yields the failure sentinel, the whole run behaves
exactly as if that URL were absent from the list (remaining URLs are still
processed), and nothing is persisted under that URL's key in either slot
(given that the other URLs' keys do not collide with it). -/
theorem run_skips_failed_url (parse : String → Option Snapshot)
    (stringify : Snapshot → String) (scorers : String → ℕ → Option ScoreSample)
    (pre post : List String) (u : String) (mode : Bool) (st : Store)
    (hfail : ∀ i, 1 ≤ i → i ≤ 3 → scorers u i = none)
    (hkeys : ∀ w ∈ pre ++ post, urlToFilename w ≠ urlToFilename u) :
    runMultipleLighthouse u (scorers u) 3 = none ∧
    run parse stringify scorers (pre ++ u :: post) mode st =
      run parse stringify scorers (pre ++ post) mode st ∧
    (run parse stringify scorers (pre ++ u :: post) mode st).state.baseline
        (urlToFilename u) = st.baseline (urlToFilename u) ∧
    (run parse stringify scorers (pre ++ u :: post) mode st).state.latest
        (urlToFilename u) = st.latest (urlToFilename u) := by
  have hnone : runMultipleLighthouse u (scorers u) 3 = none :=
    runMultipleLighthouse_all_fail hfail
  have hsamp : sampleAll scorers (pre ++ u :: post) = sampleAll scorers (pre ++ post) := by
    simp [sampleAll, List.filterMap_append, List.filterMap_cons, hnone]
  have hrun : run parse stringify scorers (pre ++ u :: post) mode st =
      run parse stringify scorers (pre ++ post) mode st := by
    unfold run
    rw [hsamp]
  have hpres := run_state_preserve parse stringify scorers (pre ++ post) mode st
    (urlToFilename u) hkeys
  exact ⟨hnone, hrun, by rw [hrun]; exact hpres.1, by rw [hrun]; exact hpres.2⟩

/-- Witness for C6: the scorer fails on every run of `https://b.com` but
succeeds on `https://a.com`, which is still processed. -/
theorem run_skips_failed_url_spot :
    (∀ i, 1 ≤ i → i ≤ 3 →
      (fun (w : String) (_ : ℕ) =>
        if w = "https://b.com" then none else some (⟨80, 70, 70, 70⟩ : ScoreSample))
        "https://b.com" i = none) ∧
    (∀ w ∈ (["https://a.com"] ++ []), urlToFilename w ≠ urlToFilename "https://b.com") ∧
    (runMultipleLighthouse "https://b.com"
        ((fun (w : String) (_ : ℕ) =>
          if w = "https://b.com" then none else some (⟨80, 70, 70, 70⟩ : ScoreSample))
          "https://b.com") 3 = none ∧
    run (fun _ => none) (fun _ => "rec")
        (fun (w : String) (_ : ℕ) =>
          if w = "https://b.com" then none else some (⟨80, 70, 70, 70⟩ : ScoreSample))
        (["https://a.com"] ++ "https://b.com" :: []) false
        (Store.mk (fun _ => none) (fun _ => none)) =
      run (fun _ => none) (fun _ => "rec")
        (fun (w : String) (_ : ℕ) =>
          if w = "https://b.com" then none else some (⟨80, 70, 70, 70⟩ : ScoreSample))
        (["https://a.com"] ++ []) false (Store.mk (fun _ => none) (fun _ => none)) ∧
    (run (fun _ => none) (fun _ => "rec")
        (fun (w : String) (_ : ℕ) =>
          if w = "https://b.com" then none else some (⟨80, 70, 70, 70⟩ : ScoreSample))
        (["https://a.com"] ++ "https://b.com" :: []) false
        (Store.mk (fun _ => none) (fun _ => none))).state.baseline
        (urlToFilename "https://b.com") =
      (Store.mk (fun _ => none) (fun _ => none)).baseline
        (urlToFilename "https://b.com") ∧
    (run (fun _ => none) (fun _ => "rec")
        (fun (w : String) (_ : ℕ) =>
          if w = "https://b.com" then none else some (⟨80, 70, 70, 70⟩ : ScoreSample))
        (["https://a.com"] ++ "https://b.com" :: []) false
        (Store.mk (fun _ => none) (fun _ => none))).state.latest
        (urlToFilename "https://b.com") =
      (Store.mk (fun _ => none) (fun _ => none)).latest
        (urlToFilename "https://b.com")) :=
  ⟨fun _ _ _ => rfl, by decide,
   run_skips_failed_url (fun _ => none) (fun _ => "rec")
     (fun (w : String) (_ : ℕ) =>
       if w = "https://b.com" then none else some (⟨80, 70, 70, 70⟩ : ScoreSample))
     ["https://a.com"] [] "https://b.com" false
     (Store.mk (fun _ => none) (fun _ => none))
     (fun _ _ _ => rfl) (by decide)⟩

/-- Claim C7: the process exit status of a run is non-zero exactly when no
URL in the set produced a successful snapshot; if at least one URL
succeeded it is zero even though other URLs may have failed. -/
theorem run_exit_nonzero_iff_all_fail (parse : String → Option Snapshot)
    (stringify : Snapshot → String) (scorers : String → ℕ → Option ScoreSample)
    (urls : List String) (mode : Bool) (st : Store) :
    (run parse stringify scorers urls mode st).exitCode ≠ 0 ↔
      ∀ u ∈ urls, runMultipleLighthouse u (scorers u) 3 = none := by
  unfold run
  split
  · rename_i hlen
    have : sampleAll scorers urls = [] := List.length_eq_zero.mp hlen
    simp only [ne_eq]
    constructor
    · intro _
      exact fun u hu => List.filterMap_eq_nil_iff.mp this u hu
    · intro _
      decide
  · rename_i hlen
    have hne : ¬(∀ u ∈ urls, runMultipleLighthouse u (scorers u) 3 = none) := by
      intro hall
      exact hlen (by simp [sampleAll, List.filterMap_eq_nil_iff.mpr hall])
    split <;> simpa using hne

/-- Claim C8: in baseline-update mode, a run with at least one successful
snapshot produces no reports, leaves the latest slot untouched at every
key, and writes each aggregated snapshot (serialized) to the baseline slot
under its URL's key (keys of the URL set assumed collision-free, as the
spec requires of the configured set). -/
theorem run_baseline_mode_writes_baseline_only (parse : String → Option Snapshot)
    (stringify : Snapshot → String) (scorers : String → ℕ → Option ScoreSample)
    (urls : List String) (st : Store)
    (hne : sampleAll scorers urls ≠ [])
    (hkeys : List.Pairwise (fun a b => urlToFilename a ≠ urlToFilename b) urls) :
    (run parse stringify scorers urls true st).reports = [] ∧
    (run parse stringify scorers urls true st).exitCode = 0 ∧
    (∀ k, (run parse stringify scorers urls true st).state.latest k = st.latest k) ∧
    (∀ r ∈ sampleAll scorers urls,
      (run parse stringify scorers urls true st).state.baseline (urlToFilename r.url) =
        some (stringify r)) := by
  have hlen : ¬((sampleAll scorers urls).length = 0) := by
    intro h0
    exact hne (List.length_eq_zero.mp h0)
  have hrun : run parse stringify scorers urls true st =
      { exitCode := 0, state := saveResults stringify (sampleAll scorers urls) true st,
        reports := [] } := by
    unfold run
    rw [if_neg hlen, if_pos rfl]
  rw [hrun]
  refine ⟨rfl, rfl, fun k => saveResults_true_latest stringify _ st k, ?_⟩
  intro r hr
  obtain ⟨w, hw, hwr⟩ := List.mem_filterMap.mp hr
  have hur : r.url = w := runMultipleLighthouse_url hwr
  refine saveResults_baseline_written stringify _ st r hr ?_
  intro r' hr' hk
  obtain ⟨w', hw', hwr'⟩ := List.mem_filterMap.mp hr'
  have hur' : r'.url = w' := runMultipleLighthouse_url hwr'
  have hww : w' = w := by
    by_contra hne'
    have hsym : Symmetric (fun a b : String => urlToFilename a ≠ urlToFilename b) :=
      fun _ _ h => h.symm
    have := hkeys.forall hsym hw' hw hne'
    rw [hur, hur'] at hk
    exact this hk
  rw [hww] at hwr'
  exact (Option.some.injEq _ _).mp (hwr'.symm.trans hwr)

/-- Witness for C8: two URLs, both sampling successfully, baseline mode on
an empty store. -/
theorem run_baseline_mode_writes_baseline_only_spot :
    (sampleAll (fun _ _ => some ⟨80, 70, 70, 70⟩) ["https://a.com", "https://b.com"] ≠ []) ∧
    (List.Pairwise (fun a b => urlToFilename a ≠ urlToFilename b)
      ["https://a.com", "https://b.com"]) ∧
    ((run (fun _ => none) (fun _ => "rec") (fun _ _ => some ⟨80, 70, 70, 70⟩)
        ["https://a.com", "https://b.com"] true
        (Store.mk (fun _ => none) (fun _ => none))).reports = [] ∧
    (run (fun _ => none) (fun _ => "rec") (fun _ _ => some ⟨80, 70, 70, 70⟩)
        ["https://a.com", "https://b.com"] true
        (Store.mk (fun _ => none) (fun _ => none))).exitCode = 0 ∧
    (∀ k, (run (fun _ => none) (fun _ => "rec") (fun _ _ => some ⟨80, 70, 70, 70⟩)
        ["https://a.com", "https://b.com"] true
        (Store.mk (fun _ => none) (fun _ => none))).state.latest k =
      (Store.mk (fun _ => none) (fun _ => none)).latest k) ∧
    (∀ r ∈ sampleAll (fun _ _ => some ⟨80, 70, 70, 70⟩) ["https://a.com", "https://b.com"],
      (run (fun _ => none) (fun _ => "rec") (fun _ _ => some ⟨80, 70, 70, 70⟩)
          ["https://a.com", "https://b.com"] true
          (Store.mk (fun _ => none) (fun _ => none))).state.baseline (urlToFilename r.url) =
        some ((fun _ => "rec") r))) :=
  ⟨by decide, by decide,
   run_baseline_mode_writes_baseline_only (fun _ => none) (fun _ => "rec")
     (fun _ _ => some ⟨80, 70, 70, 70⟩) ["https://a.com", "https://b.com"]
     (Store.mk (fun _ => none) (fun _ => none)) (by decide) (by decide)⟩

/-- Counterexample to claim C9 as stated: the two distinct URL strings
`http://x.com` and `https://x.com` map to the same storage key, so the
mapping is not collision-free over all pairs of distinct URLs. -/
theorem urlToFilename_scheme_collision :
    urlToFilename "http://x.com" = urlToFilename "https://x.com" ∧
      "http://x.com" ≠ "https://x.com" := by
  constructor
  · decide
  · decide

/-- Claim C9 (amended): the URL-to-key mapping is deterministic, and two
URLs receive distinct keys whenever their normalized forms (scheme
stripped, non-alphanumerics replaced by `-`) differ; URLs equal up to that
normalization, such as `http://` vs `https://` variants, collide. -/
theorem urlToFilename_deterministic_and_injective (u v : String)
    (h : normalizeKey u ≠ normalizeKey v) :
    urlToFilename u = urlToFilename u ∧ urlToFilename u ≠ urlToFilename v := by
  refine ⟨rfl, ?_⟩
  intro he
  apply h
  have hdata : (normalizeKey u).data ++ ".json".data =
      (normalizeKey v).data ++ ".json".data := by
    have := congrArg String.data he
    simpa [urlToFilename] using this
  have h2 := List.append_cancel_right hdata
  exact congrArg String.mk h2

/-- Witness for amended C9: two configured URLs with different hosts get
different keys. -/
theorem urlToFilename_deterministic_and_injective_spot :
    (normalizeKey "https://a.com" ≠ normalizeKey "https://b.com") ∧
    (urlToFilename "https://a.com" = urlToFilename "https://a.com" ∧
      urlToFilename "https://a.com" ≠ urlToFilename "https://b.com") :=
  ⟨by decide,
   urlToFilename_deterministic_and_injective "https://a.com" "https://b.com" (by decide)⟩

/-- A non-negative sum averaged over one more sample cannot round to a
larger value. -/
lemma mathRound_div_succ_le (S : ℤ) (n : ℕ) (h0 : 0 < n) (hS : 0 ≤ S) :
    mathRound ((S : ℚ) / ((n + 1 : ℕ) : ℚ)) ≤ mathRound ((S : ℚ) / (n : ℚ)) := by
  unfold mathRound
  apply Int.floor_le_floor
  have hn : (0 : ℚ) < n := by exact_mod_cast h0
  have hn1 : (0 : ℚ) < ((n + 1 : ℕ) : ℚ) := by push_cast; linarith
  have hSq : (0 : ℚ) ≤ (S : ℚ) := by exact_mod_cast hS
  have hdiv : (S : ℚ) / ((n + 1 : ℕ) : ℚ) ≤ (S : ℚ) / n := by
    rw [div_le_div_iff₀ hn1 hn]
    push_cast
    nlinarith
  linarith

/-- Prepending a sample whose score in one category (`f`) is 0 to a
non-empty list of samples non-negative in that category cannot raise that
category's rounded average. -/
lemma averaged_cons_zero_le (s : ScoreSample) (rest : List ScoreSample)
    (f : ScoreSample → ℤ) (hs : f s = 0) (h2 : rest ≠ [])
    (h3 : ∀ x ∈ rest, 0 ≤ f x) :
    mathRound ((sumBy f (s :: rest) : ℚ) / ((s :: rest).length : ℚ)) ≤
      mathRound ((sumBy f rest : ℚ) / (rest.length : ℚ)) := by
  have hlen : 0 < rest.length := List.length_pos.mpr h2
  have hS : 0 ≤ sumBy f rest := by
    have := mul_length_le_sumBy f rest 0 h3
    simpa using this
  rw [sumBy_cons, hs, zero_add, List.length_cons]
  exact mathRound_div_succ_le _ _ hlen hS

/-- Claim C10: a parseable Lighthouse result whose `categories` object is
present is accepted as a sample rather than counted as a failed run (with
each category's score defaulted through `?.score || 0`), and for each of
the four categories, if that category's score is missing (category object
absent or score `null`) it is recorded as `0`, and folding the sample into
an aggregate cannot raise (and in general lowers) that category's average
relative to the remaining samples. -/
theorem runLighthouse_missing_category_zero (cats : RawCategories)
    (url : String) (rest : List ScoreSample) (h2 : rest ≠ [])
    (h3 : ∀ x ∈ rest, 0 ≤ x.performance ∧ 0 ≤ x.accessibility ∧
      0 ≤ x.bestPractices ∧ 0 ≤ x.seo) :
    runLighthouse (some ⟨some cats⟩) =
      some { performance := mathRound ((cats.performance.getD 0) * 100),
             accessibility := mathRound ((cats.accessibility.getD 0) * 100),
             bestPractices := mathRound ((cats.bestPractices.getD 0) * 100),
             seo := mathRound ((cats.seo.getD 0) * 100) } ∧
    (cats.performance = none →
      mathRound ((cats.performance.getD 0) * 100) = 0 ∧
      (averagedSnapshot url
          ({ performance := mathRound ((cats.performance.getD 0) * 100),
             accessibility := mathRound ((cats.accessibility.getD 0) * 100),
             bestPractices := mathRound ((cats.bestPractices.getD 0) * 100),
             seo := mathRound ((cats.seo.getD 0) * 100) } :: rest)).performance ≤
        (averagedSnapshot url rest).performance) ∧
    (cats.accessibility = none →
      mathRound ((cats.accessibility.getD 0) * 100) = 0 ∧
      (averagedSnapshot url
          ({ performance := mathRound ((cats.performance.getD 0) * 100),
             accessibility := mathRound ((cats.accessibility.getD 0) * 100),
             bestPractices := mathRound ((cats.bestPractices.getD 0) * 100),
             seo := mathRound ((cats.seo.getD 0) * 100) } :: rest)).accessibility ≤
        (averagedSnapshot url rest).accessibility) ∧
    (cats.bestPractices = none →
      mathRound ((cats.bestPractices.getD 0) * 100) = 0 ∧
      (averagedSnapshot url
          ({ performance := mathRound ((cats.performance.getD 0) * 100),
             accessibility := mathRound ((cats.accessibility.getD 0) * 100),
             bestPractices := mathRound ((cats.bestPractices.getD 0) * 100),
             seo := mathRound ((cats.seo.getD 0) * 100) } :: rest)).bestPractices ≤
        (averagedSnapshot url rest).bestPractices) ∧
    (cats.seo = none →
      mathRound ((cats.seo.getD 0) * 100) = 0 ∧
      (averagedSnapshot url
          ({ performance := mathRound ((cats.performance.getD 0) * 100),
             accessibility := mathRound ((cats.accessibility.getD 0) * 100),
             bestPractices := mathRound ((cats.bestPractices.getD 0) * 100),
             seo := mathRound ((cats.seo.getD 0) * 100) } :: rest)).seo ≤
        (averagedSnapshot url rest).seo) := by
  refine ⟨rfl, ?_, ?_, ?_, ?_⟩
  · intro hc
    have hz : mathRound ((cats.performance.getD 0) * 100) = 0 := by
      rw [hc]
      norm_num [mathRound]
    exact ⟨hz, averaged_cons_zero_le _ rest (fun r => r.performance) hz h2
      (fun x hx => (h3 x hx).1)⟩
  · intro hc
    have hz : mathRound ((cats.accessibility.getD 0) * 100) = 0 := by
      rw [hc]
      norm_num [mathRound]
    exact ⟨hz, averaged_cons_zero_le _ rest (fun r => r.accessibility) hz h2
      (fun x hx => (h3 x hx).2.1)⟩
  · intro hc
    have hz : mathRound ((cats.bestPractices.getD 0) * 100) = 0 := by
      rw [hc]
      norm_num [mathRound]
    exact ⟨hz, averaged_cons_zero_le _ rest (fun r => r.bestPractices) hz h2
      (fun x hx => (h3 x hx).2.2.1)⟩
  · intro hc
    have hz : mathRound ((cats.seo.getD 0) * 100) = 0 := by
      rw [hc]
      norm_num [mathRound]
    exact ⟨hz, averaged_cons_zero_le _ rest (fun r => r.seo) hz h2
      (fun x hx => (h3 x hx).2.2.2)⟩

/-- Witness for C10: a categories object missing the performance and
best-practices scores, folded against one prior sample `80/70/70/70`. -/
theorem runLighthouse_missing_category_zero_spot :
    (([⟨80, 70, 70, 70⟩] : List ScoreSample) ≠ []) ∧
    (∀ x ∈ ([⟨80, 70, 70, 70⟩] : List ScoreSample), 0 ≤ x.performance ∧
      0 ≤ x.accessibility ∧ 0 ≤ x.bestPractices ∧ 0 ≤ x.seo) ∧
    (runLighthouse (some ⟨some catsMissingTwo⟩) =
      some { performance := mathRound ((catsMissingTwo.performance.getD 0) * 100),
             accessibility := mathRound ((catsMissingTwo.accessibility.getD 0) * 100),
             bestPractices := mathRound ((catsMissingTwo.bestPractices.getD 0) * 100),
             seo := mathRound ((catsMissingTwo.seo.getD 0) * 100) } ∧
    (catsMissingTwo.performance = none →
      mathRound ((catsMissingTwo.performance.getD 0) * 100) = 0 ∧
      (averagedSnapshot "https://example.com/"
          ({ performance := mathRound ((catsMissingTwo.performance.getD 0) * 100),
             accessibility := mathRound ((catsMissingTwo.accessibility.getD 0) * 100),
             bestPractices := mathRound ((catsMissingTwo.bestPractices.getD 0) * 100),
             seo := mathRound ((catsMissingTwo.seo.getD 0) * 100) }
            :: [⟨80, 70, 70, 70⟩])).performance ≤
        (averagedSnapshot "https://example.com/" [⟨80, 70, 70, 70⟩]).performance) ∧
    (catsMissingTwo.accessibility = none →
      mathRound ((catsMissingTwo.accessibility.getD 0) * 100) = 0 ∧
      (averagedSnapshot "https://example.com/"
          ({ performance := mathRound ((catsMissingTwo.performance.getD 0) * 100),
             accessibility := mathRound ((catsMissingTwo.accessibility.getD 0) * 100),
             bestPractices := mathRound ((catsMissingTwo.bestPractices.getD 0) * 100),
             seo := mathRound ((catsMissingTwo.seo.getD 0) * 100) }
            :: [⟨80, 70, 70, 70⟩])).accessibility ≤
        (averagedSnapshot "https://example.com/" [⟨80, 70, 70, 70⟩]).accessibility) ∧
    (catsMissingTwo.bestPractices = none →
      mathRound ((catsMissingTwo.bestPractices.getD 0) * 100) = 0 ∧
      (averagedSnapshot "https://example.com/"
          ({ performance := mathRound ((catsMissingTwo.performance.getD 0) * 100),
             accessibility := mathRound ((catsMissingTwo.accessibility.getD 0) * 100),
             bestPractices := mathRound ((catsMissingTwo.bestPractices.getD 0) * 100),
             seo := mathRound ((catsMissingTwo.seo.getD 0) * 100) }
            :: [⟨80, 70, 70, 70⟩])).bestPractices ≤
        (averagedSnapshot "https://example.com/" [⟨80, 70, 70, 70⟩]).bestPractices) ∧
    (catsMissingTwo.seo = none →
      mathRound ((catsMissingTwo.seo.getD 0) * 100) = 0 ∧
      (averagedSnapshot "https://example.com/"
          ({ performance := mathRound ((catsMissingTwo.performance.getD 0) * 100),
             accessibility := mathRound ((catsMissingTwo.accessibility.getD 0) * 100),
             bestPractices := mathRound ((catsMissingTwo.bestPractices.getD 0) * 100),
             seo := mathRound ((catsMissingTwo.seo.getD 0) * 100) }
            :: [⟨80, 70, 70, 70⟩])).seo ≤
        (averagedSnapshot "https://example.com/" [⟨80, 70, 70, 70⟩]).seo)) :=
  ⟨by decide, by decide,
   runLighthouse_missing_category_zero catsMissingTwo
     "https://example.com/" [⟨80, 70, 70, 70⟩] (by decide) (by decide)⟩

end PageSpeedCompare
